import Mathlib

/-!
# Verification of the Nickel REPL (`src/repl.rs`)

This file gives a shallow embedding of the REPL backend and frontends of
`src/repl.rs` and proves the frozen claims about them.

Only `src/repl.rs` is part of the repository sources; the core pipeline it
orchestrates (the grammar parser, the typechecker, the transformation passes,
the evaluator and the source cache) lives in sibling modules that are not part
of `src/`.  Those collaborators are therefore modelled from the spec (section 6
of `spec.md`) as an abstract `Pipeline` of functions over an abstract cache
type, and every theorem about the REPL quantifies over all such pipelines.
Source positions are not modelled: the spec states that positions are
informational only and never affect semantics.
-/

/-- Identifiers (`crate::identifier::Ident`). -/
abbrev Ident := String

/-- File handles of the source cache (`codespan::FileId`). -/
abbrev FileId := Nat

/-- Modelled from the spec: `crate::types::Types`, the public type representation
returned by `apparent_type`.  Only its identity matters to the REPL, so it is
kept abstract as its printed form. -/
abbrev Types := String

/-- Modelled from the spec: the internal-invariant error of the transformation
pipeline (spec section 4.5, `transform(term) -> Term | InternalError`).  Only the
message matters to the REPL. -/
abbrev InternalError := String

/-- `crate::term::MergePriority`: the merge priority stored in a meta-value. -/
inductive MergePriority where
  | Default
  | Normal
deriving DecidableEq, Repr

/-- Modelled from the spec: the blame label attached to a contract.  The query
printer reads back `label.types`, the user-written type of the contract. -/
structure Label where
  types : String
deriving DecidableEq, Repr

/-- Modelled from the spec: a contract paired with its blame label
(spec section 3, `Contract`). -/
structure Contract where
  label : Label
deriving DecidableEq, Repr

/-- Modelled from the spec: the term model `crate::term::Term` (spec section 3).
`repl.rs` inspects records, recursive records and meta-values; every other
variant is collapsed into `Other`, identified by its shallow representation. -/
inductive Term where
  | Bool (b : Bool)
  | Num (n : Int)
  | Str (s : String)
  | Record (fields : List (Ident × Term))
  | RecRecord (fields : List (Ident × Term))
  | MetaValue (doc : Option String) (contracts : List Contract)
      (priority : MergePriority) (value : Option Term)
  | Other (descr : String)

/-- Modelled from the spec: `Term::shallow_repr` (defined in the term model,
outside `src/`) renders only the outermost constructor of a term. -/
def Term.shallow_repr : Term → String
  | Term.Bool b => if b then "true" else "false"
  | Term.Num n => toString n
  | Term.Str s => "\"" ++ s ++ "\""
  | Term.Record _ => "\x7b ... \x7d"
  | Term.RecRecord _ => "\x7b ... \x7d"
  | Term.MetaValue _ _ _ _ => "<metavalue>"
  | Term.Other d => d

/-- `crate::parser::ExtendedTerm`: the REPL grammar accepts either a plain
expression or a toplevel let binding. -/
inductive ExtendedTerm where
  | RichTerm (t : Term)
  | ToplevelLet (id : Ident) (t : Term)

/-- Modelled from the spec: `crate::error::ParseError` (spec section 7).  The
unexpected-end-of-input case is a distinguished variant, and `repl.rs` itself
also matches on the distinct `UnmatchedCloseBrace` variant; every other syntax
error is collapsed into `SyntaxError`. -/
inductive ParseError where
  | UnexpectedEOF
  | UnmatchedCloseBrace
  | SyntaxError (msg : String)
deriving DecidableEq, Repr

/-- Modelled from the spec: `crate::error::TypecheckError` (spec section 7).
Only its identity matters to the REPL. -/
structure TypecheckError where
  msg : String
deriving DecidableEq, Repr

/-- Modelled from the spec: `crate::error::EvalError` (spec section 7).
`repl.rs` constructs the `Other` variant itself; the remaining runtime errors
are collapsed into `Blame`. -/
inductive EvalError where
  | Other (msg : String)
  | Blame (msg : String)
deriving DecidableEq, Repr

/-- Modelled from the spec: `crate::error::IOError`. -/
structure IOError where
  msg : String
deriving DecidableEq, Repr

/-- `command::CommandType`: the type of a REPL command. -/
inductive CommandType where
  | Load
  | Typecheck
  | Query
  | Help
  | Exit
deriving DecidableEq, Repr

/-- `crate::error::REPLError`: errors produced while parsing a REPL command. -/
inductive REPLError where
  | UnknownCommand (cmd : String)
  | MissingArg (cmd : CommandType) (msg_opt : Option String)
deriving DecidableEq, Repr

/-- Modelled from the spec: the aggregated `crate::error::Error` into which
every stage error converts (spec section 7). -/
inductive Error where
  | ParseError (e : ParseError)
  | TypecheckError (e : TypecheckError)
  | EvalError (e : EvalError)
  | IOError (e : IOError)
  | REPLError (e : REPLError)
  | InternalError (e : InternalError)
deriving DecidableEq, Repr

/-- The typing environment: identifiers bound to their (fully resolved) types.
Extension prepends, mirroring the shadowing insert of the source map. -/
abbrev TypeEnv := List (Ident × Types)

/-- The evaluation environment: identifiers bound to terms.  The captured
closure environment of the source is not modelled: the claims only concern
which identifiers are bound. -/
abbrev EvalEnv := List (Ident × Term)

/-- `bind(env, identifier, v)`: the explicit extension operation shared by both
environments (spec section 6). -/
def envAdd (env : List (Ident × α)) (id : Ident) (v : α) : List (Ident × α) :=
  (id, v) :: env

/-- The identifiers bound by an environment. -/
def envIdents (env : List (Ident × α)) : List Ident :=
  env.map Prod.fst

/-- Rust `char::is_whitespace`: the Unicode `White_Space` property. -/
def rust_is_whitespace (c : Char) : Bool :=
  (9 ≤ c.val && c.val ≤ 13) || c.val = 32 || c.val = 0x85 || c.val = 0xA0 ||
  c.val = 0x1680 || (0x2000 ≤ c.val && c.val ≤ 0x200A) ||
  c.val = 0x2028 || c.val = 0x2029 || c.val = 0x202F || c.val = 0x205F ||
  c.val = 0x3000

/-- Drop leading and trailing whitespace from a character list. -/
def trimChars (l : List Char) : List Char :=
  ((l.dropWhile rust_is_whitespace).reverse.dropWhile rust_is_whitespace).reverse

/-- Rust `str::trim`. -/
def rustTrim (s : String) : String :=
  String.mk (trimChars s.data)

/-- Rust `str::starts_with(':')`: the first character is a colon. -/
def startsWithColon (s : String) : Bool :=
  match s.data with
  | [] => false
  | c :: _ => c == ':'

/-- Rust `s.trim().is_empty()`. -/
def isBlank (s : String) : Bool :=
  (trimChars s.data).isEmpty

/-- Modelled from the spec: the core pipeline consumed by the REPL
(spec section 6).  The parser, typechecker, transformation passes, evaluator
and cache are outside `src/`; they are abstracted as functions over an opaque
cache type `κ`.  Parsing does not read the cache: the file id it receives in
the source only seeds source positions, which are informational only. -/
structure Pipeline (κ : Type) where
  /-- `Cache::add_string(name, source)`. -/
  add_string : κ → String → String → FileId × κ
  /-- `Cache::add_tmp(name, source)`. -/
  add_tmp : κ → String → String → FileId × κ
  /-- `Cache::add_file(path)`. -/
  add_file : κ → String → Except IOError (FileId × κ)
  /-- `grammar::ExtendedTermParser::parse` over a lexed source string. -/
  parse : String → Except ParseError ExtendedTerm
  /-- `Cache::parse_nocache` over the source registered for a tmp file. -/
  parse_nocache : String → Except ParseError Term
  /-- `Cache::parse(file_id)` followed by `Cache::get_ref`. -/
  parse_file : κ → FileId → Except ParseError (Term × κ)
  /-- `typecheck::type_check_in_env(term, type_env, cache)`. -/
  type_check_in_env : Term → TypeEnv → κ → Except TypecheckError Unit
  /-- `typecheck::apparent_type`. -/
  apparent_type : Term → Types
  /-- `transformations::transform(term, cache)`. -/
  transform : Term → κ → Except InternalError (Term × κ)
  /-- `Cache::transform_inner(file_id)` followed by `Cache::get_owned`. -/
  transform_inner : κ → FileId → Except InternalError (Term × κ)
  /-- `eval::eval(term, eval_env, cache)`. -/
  eval : Term → EvalEnv → κ → Except EvalError (Term × κ)
  /-- `program::query(cache, file_id, eval_env, None)` over the source
  registered for the query's tmp file. -/
  query : κ → String → EvalEnv → Except Error (Term × κ)

/-- `REPLImpl`: the state of the REPL backend.  The process-global
`InputNameCounter` is modelled as the `counter` field. -/
structure REPLImpl (κ : Type) where
  cache : κ
  counter : Nat
  type_env : TypeEnv
  eval_env : EvalEnv

/-- `EvalResult`: result of the evaluation of an input. -/
inductive EvalResult where
  | Evaluated (t : Term)
  | Bound (id : Ident)

/-- Modelled from the spec: `typecheck::Envs::env_add_term` inserts every field
of a record term into the typing environment (the typechecker is outside
`src/`; spec section 4.4 requires the addition to mirror the evaluator's). -/
def envAddTermTypes (P : Pipeline κ) (env : TypeEnv) : Term → TypeEnv
  | Term.Record fs => fs.foldl (fun e f => envAdd e f.1 (P.apparent_type f.2)) env
  | Term.RecRecord fs => fs.foldl (fun e f => envAdd e f.1 (P.apparent_type f.2)) env
  | _ => env

/-- Modelled from the spec: `eval::env_add_term` inserts every field of a
record term into the evaluation environment (the evaluator is outside `src/`).
-/
def envAddTermEval (env : EvalEnv) : Term → EvalEnv
  | Term.Record fs => fs.foldl (fun e f => envAdd e f.1 f.2) env
  | Term.RecRecord fs => fs.foldl (fun e f => envAdd e f.1 f.2) env
  | _ => env

/-- `REPLImpl::eval` (repl.rs:94-121): register the input in the cache, parse
it, and either run typecheck → transform → evaluate on a plain expression, or
typecheck a toplevel let, add it to the typing environment, transform it, and
add it to the evaluation environment. -/
def REPLImpl.eval (P : Pipeline κ) (st : REPLImpl κ) (exp : String) :
    Except Error EvalResult × REPLImpl κ :=
  let step := P.add_string st.cache ("repl-input-" ++ toString st.counter) exp
  let st1 : REPLImpl κ := { st with cache := step.2, counter := st.counter + 1 }
  match P.parse exp with
  | Except.error err => (Except.error (Error.ParseError err), st1)
  | Except.ok (ExtendedTerm.RichTerm t) =>
    match P.type_check_in_env t st1.type_env st1.cache with
    | Except.error err => (Except.error (Error.TypecheckError err), st1)
    | Except.ok _ =>
      match P.transform t st1.cache with
      | Except.error err => (Except.error (Error.InternalError err), st1)
      | Except.ok (t2, c2) =>
        let st2 : REPLImpl κ := { st1 with cache := c2 }
        match P.eval t2 st2.eval_env st2.cache with
        | Except.error err => (Except.error (Error.EvalError err), st2)
        | Except.ok (v, c3) =>
          (Except.ok (EvalResult.Evaluated v), { st2 with cache := c3 })
  | Except.ok (ExtendedTerm.ToplevelLet id t) =>
    match P.type_check_in_env t st1.type_env st1.cache with
    | Except.error err => (Except.error (Error.TypecheckError err), st1)
    | Except.ok _ =>
      let st2 : REPLImpl κ :=
        { st1 with type_env := envAdd st1.type_env id (P.apparent_type t) }
      match P.transform t st2.cache with
      | Except.error err => (Except.error (Error.InternalError err), st2)
      | Except.ok (t2, c2) =>
        (Except.ok (EvalResult.Bound id),
         { st2 with cache := c2, eval_env := envAdd st2.eval_env id t2 })

/-- Whether a term is a record or a recursive record. -/
def isRecordTerm : Term → Bool
  | Term.Record _ => true
  | Term.RecRecord _ => true
  | _ => false

/-- `REPLImpl::load` (repl.rs:123-150): register the file, parse it, check that
the toplevel term is a record *before* any transformation, transform it, and
add its fields to both environments. -/
def REPLImpl.load (P : Pipeline κ) (st : REPLImpl κ) (path : String) :
    Except Error Term × REPLImpl κ :=
  match P.add_file st.cache path with
  | Except.error err => (Except.error (Error.IOError err), st)
  | Except.ok (fid, c) =>
    let st1 : REPLImpl κ := { st with cache := c }
    match P.parse_file st1.cache fid with
    | Except.error err => (Except.error (Error.ParseError err), st1)
    | Except.ok (t, c2) =>
      let st2 : REPLImpl κ := { st1 with cache := c2 }
      if isRecordTerm t then
        match P.transform_inner st2.cache fid with
        | Except.error err => (Except.error (Error.InternalError err), st2)
        | Except.ok (term, c3) =>
          (Except.ok term,
           { st2 with
              cache := c3,
              type_env := envAddTermTypes P st2.type_env term,
              eval_env := envAddTermEval st2.eval_env term })
      else
        (Except.error (Error.EvalError (EvalError.Other "load: expected a record")),
         st2)

/-- `REPLImpl::typecheck` (repl.rs:152-162): register the input as a tmp file,
parse it without caching, typecheck it against the typing environment and
return its apparent type.  Neither environment is extended. -/
def REPLImpl.typecheck (P : Pipeline κ) (st : REPLImpl κ) (exp : String) :
    Except Error Types × REPLImpl κ :=
  let step := P.add_tmp st.cache "<repl-typecheck>" exp
  let st1 : REPLImpl κ := { st with cache := step.2 }
  match P.parse_nocache exp with
  | Except.error err => (Except.error (Error.ParseError err), st1)
  | Except.ok t =>
    match P.type_check_in_env t st1.type_env st1.cache with
    | Except.error err => (Except.error (Error.TypecheckError err), st1)
    | Except.ok _ => (Except.ok (P.apparent_type t), st1)

/-- `REPLImpl::query` (repl.rs:164-169): register the input as a tmp file and
delegate to `program::query`. -/
def REPLImpl.query (P : Pipeline κ) (st : REPLImpl κ) (exp : String) :
    Except Error Term × REPLImpl κ :=
  let step := P.add_tmp st.cache "<repl-query>" exp
  let st1 : REPLImpl κ := { st with cache := step.2 }
  match P.query st1.cache exp st1.eval_env with
  | Except.error err => (Except.error err, st1)
  | Except.ok (t, c2) => (Except.ok t, { st1 with cache := c2 })

/-- `command::UnknownCommandError`. -/
structure UnknownCommandError where
deriving DecidableEq, Repr

/-- `CommandType::from_str` (repl.rs:216-231): recognize a command name or one
of its aliases. -/
def CommandType.from_str (s : String) : Except UnknownCommandError CommandType :=
  if s = "load" || s = "l" then Except.ok CommandType.Load
  else if s = "typecheck" || s = "tc" then Except.ok CommandType.Typecheck
  else if s = "query" || s = "q" then Except.ok CommandType.Query
  else if s = "help" || s = "?" || s = "h" then Except.ok CommandType.Help
  else if s = "exit" || s = "e" then Except.ok CommandType.Exit
  else Except.error {}

/-- `CommandType::aliases` (repl.rs:233-246). -/
def CommandType.aliases : CommandType → List String
  | CommandType.Load => ["l"]
  | CommandType.Typecheck => ["tc"]
  | CommandType.Query => ["q"]
  | CommandType.Help => ["h", "?"]
  | CommandType.Exit => ["e"]

/-- The `Display` rendering of a command type (repl.rs:248-260). -/
def CommandType.display : CommandType → String
  | CommandType.Load => "load"
  | CommandType.Typecheck => "typecheck"
  | CommandType.Query => "query"
  | CommandType.Help => "help"
  | CommandType.Exit => "exit"

/-- `command::Command`: a parsed command with its argument(s). -/
inductive Command where
  | Load (path : String)
  | Typecheck (exp : String)
  | Query (exp : String)
  | Help (arg : Option String)
  | Exit
deriving DecidableEq, Repr

/-- `require_arg` (repl.rs:205-214): check that an argument is non-empty after
trimming, or return a `MissingArg` error with the given optional message. -/
def require_arg (cmd : CommandType) (arg : String) (msg_opt : Option String) :
    Except REPLError Unit :=
  if isBlank arg then
    Except.error (REPLError.MissingArg cmd msg_opt)
  else Except.ok ()

/-- The index of the first space of the input, or its length
(`s.find(' ').unwrap_or_else(|| s.len())`).  The source uses a byte index where
this model uses a character index; they agree whenever the command word is
ASCII, which every recognized command name is. -/
def cmdEndIdx (l : List Char) : Nat :=
  (l.findIdx? (fun c => c = ' ')).getD l.length

/-- The command word of a command line (`s.chars().take(cmd_end)`). -/
def cmdStrOf (s : String) : String :=
  String.mk (s.data.take (cmdEndIdx s.data))

/-- The argument of a command line (`s.chars().skip(cmd_end + 1)`). -/
def argOf (s : String) : String :=
  String.mk (s.data.drop (cmdEndIdx s.data + 1))

/-- `Command::from_str` (repl.rs:262-298): split the input at the first space,
recognize the command type, and check the argument requirements of each
command. -/
def Command.from_str (s : String) : Except REPLError Command :=
  let cmd_str := cmdStrOf s
  match CommandType.from_str cmd_str with
  | Except.error _ => Except.error (REPLError.UnknownCommand cmd_str)
  | Except.ok cmd =>
    let arg := argOf s
    match cmd with
    | CommandType.Load =>
      match require_arg CommandType.Load arg (some "Please provide a file to load") with
      | Except.error e => Except.error e
      | Except.ok _ => Except.ok (Command.Load arg)
    | CommandType.Typecheck =>
      match require_arg CommandType.Typecheck arg none with
      | Except.error e => Except.error e
      | Except.ok _ => Except.ok (Command.Typecheck arg)
    | CommandType.Query =>
      match require_arg CommandType.Query arg none with
      | Except.error e => Except.error e
      | Except.ok _ => Except.ok (Command.Query arg)
    | CommandType.Exit => Except.ok Command.Exit
    | CommandType.Help =>
      Except.ok (Command.Help
        (if isBlank arg then none else some (rustTrim arg)))

/-- `InputStatus`: result of the incremental input parser. -/
inductive InputStatus where
  | Complete (t : ExtendedTerm)
  | Partial
  | Command
  | Failed (e : ParseError)

/-- `InputParser::parse` (repl.rs:361-378): inputs that start with `:` or are
blank are commands; otherwise the grammar parser runs, with unexpected-EOF and
unmatched-close-brace errors flagged as partial input.  The grammar parser is
outside `src/`, so it is passed as a function. -/
def InputParser.parse (parser : String → Except ParseError ExtendedTerm)
    (input : String) : InputStatus :=
  if startsWithColon input || isBlank input then InputStatus.Command
  else
    match parser input with
    | Except.ok t => InputStatus.Complete t
    | Except.error ParseError.UnexpectedEOF => InputStatus.Partial
    | Except.error ParseError.UnmatchedCloseBrace => InputStatus.Partial
    | Except.error err => InputStatus.Failed err

/-- `query_print::Attributes`: which metadata attributes a query reports. -/
structure Attributes where
  doc : Bool
  contract : Bool
  default : Bool
  value : Bool
deriving DecidableEq, Repr

/-- `Attributes::default()` (repl.rs:1098-1107): show all available metadata. -/
def Attributes.standard : Attributes :=
  { doc := true, contract := true, default := true, value := true }

/-- One output action of the query printer.  `metadata`, `doc` and `fields`
record the calls to the `QueryPrinter` trait; `line` records a direct
`writeln!` to the output; `stdoutLine` records the one `println!` that goes to
the process stdout rather than to the output writer (repl.rs:1199). -/
inductive OutEvent where
  | metadata (attr value : String)
  | doc (content : String)
  | fields (names : List Ident)
  | line (s : String)
  | stdoutLine (s : String)
deriving DecidableEq, Repr

/-- Insertion into a sorted list of identifiers. -/
def insertSorted (x : Ident) : List Ident → List Ident
  | [] => [x]
  | y :: ys => if x ≤ y then x :: y :: ys else y :: insertSorted x ys

/-- `fields.sort()` on the keys of a record. -/
def sortIdents (l : List Ident) : List Ident :=
  l.foldr insertSorted []

/-- The inner `write_fields` helper of `write_query_result_` (repl.rs:1137-1152):
a leading blank line, then the sorted field list of a record, the literal
`{}` value for an empty record, and nothing for any other term. -/
def writeFieldsEvents : Term → List OutEvent
  | Term.Record fs =>
    if fs.isEmpty then [OutEvent.line "", OutEvent.metadata "value" "\x7b\x7d"]
    else [OutEvent.line "", OutEvent.fields (sortIdents (fs.map Prod.fst))]
  | Term.RecRecord fs =>
    if fs.isEmpty then [OutEvent.line "", OutEvent.metadata "value" "\x7b\x7d"]
    else [OutEvent.line "", OutEvent.fields (sortIdents (fs.map Prod.fst))]
  | _ => [OutEvent.line ""]

/-- The `write_fields` calls over `meta.value.iter()`. -/
def valueFieldsEvents : Option Term → List OutEvent
  | some rt => writeFieldsEvents rt
  | none => []

/-- `write_query_result_` (repl.rs:1130-1222), with the output modelled as the
list of printing actions: for a meta-value print the contracts, the value
under the attribute selected by its priority, and the documentation; fall back
to a not-found message when nothing was printed; for records print the field
list, and for any other term its shallow representation as the value. -/
def write_query_result_ (term : Term) (selected_attrs : Attributes) :
    List OutEvent :=
  match term with
  | Term.MetaValue doc contracts priority value =>
    let contractEvents :=
      if !contracts.isEmpty && selected_attrs.contract then
        [OutEvent.metadata "contract"
          (String.intercalate "," (contracts.map (fun ctr => ctr.label.types)))]
      else []
    let valueEvents :=
      match priority, value with
      | MergePriority.Default, some t =>
        if selected_attrs.default then
          [OutEvent.metadata "default" t.shallow_repr]
        else []
      | MergePriority.Normal, some t =>
        if selected_attrs.value then
          [OutEvent.metadata "value" t.shallow_repr]
        else []
      | _, _ => []
    let docEvents :=
      match doc with
      | some s => if selected_attrs.doc then [OutEvent.doc s] else []
      | none => []
    let found := !contractEvents.isEmpty || !valueEvents.isEmpty || !docEvents.isEmpty
    let notFoundEvents :=
      if !found then
        OutEvent.stdoutLine "Requested metadata were not found for this value."
          :: valueFieldsEvents value
      else []
    contractEvents ++ valueEvents ++ docEvents ++ notFoundEvents ++
      valueFieldsEvents value
  | Term.Record fs =>
    OutEvent.line "No metadata found for this value." ::
      writeFieldsEvents (Term.Record fs)
  | Term.RecRecord fs =>
    OutEvent.line "No metadata found for this value." ::
      writeFieldsEvents (Term.RecRecord fs)
  | t =>
    OutEvent.line "jo metadata found for this value.\n" ::
      (if selected_attrs.value then [OutEvent.metadata "value" t.shallow_repr]
       else [])

/-- `SimpleRenderer::write_metadata` (repl.rs:982-984). -/
def renderMetadataSimple (attr value : String) : String :=
  "* " ++ attr ++ ": " ++ value ++ "\n"

/-- `SimpleRenderer::write_doc` (repl.rs:986-993). -/
def renderDocSimple (content : String) : String :=
  if content.data.contains '\n' then
    "* documentation\n\n" ++ content ++ "\n"
  else renderMetadataSimple "documentation" content

/-- `SimpleRenderer::write_fields` (repl.rs:995-1006). -/
def renderFieldsSimple (names : List Ident) : String :=
  "Available fields:\n" ++ String.join (names.map (fun f => " - " ++ f ++ "\n"))

/-- Render the recorded printing actions with the `SimpleRenderer` (the
renderer `write_query_result` selects in a build without markdown support).
The `stdoutLine` action goes to the process stdout, not to the output writer,
so it contributes nothing. -/
def renderOut (events : List OutEvent) : String :=
  String.join (events.map (fun ev =>
    match ev with
    | OutEvent.metadata attr value => renderMetadataSimple attr value
    | OutEvent.doc content => renderDocSimple content
    | OutEvent.fields names => renderFieldsSimple names
    | OutEvent.line s => s ++ "\n"
    | OutEvent.stdoutLine _ => ""))

/-- `query_print::write_query_result` rendered to the output string. -/
def write_query_result (term : Term) (selected_attrs : Attributes) : String :=
  renderOut (write_query_result_ term selected_attrs)

/-- The `print_aliases` helper of `print_help` (repl.rs:398-408). -/
def printAliases (cmd : CommandType) : String :=
  match cmd.aliases with
  | [] => "\n"
  | fst :: rest =>
    "Aliases: `" ++ fst ++ "`" ++
      String.join (rest.map (fun al => ", `" ++ al ++ "`")) ++ "\n\n"

/-- `print_help` (repl.rs:394-456) rendered to a string. -/
def print_help (arg : Option String) : String :=
  match arg with
  | some a =>
    match CommandType.from_str a with
    | Except.ok CommandType.Help =>
      ":help [command]\n" ++ printAliases CommandType.Help ++
        "Prints a list of available commands or the help of the given command\n"
    | Except.ok CommandType.Query =>
      ":query <expression>\n" ++ printAliases CommandType.Query ++
        "Print the metadata attached to an attribute\n"
    | Except.ok CommandType.Load =>
      ":load <file>\n" ++ printAliases CommandType.Load ++
        "Evaluate the content of <file> to a record and load its attributes in the environment." ++
        " Fail if the content of <file> doesn't evaluate to a record\n"
    | Except.ok CommandType.Typecheck =>
      ":typecheck <expression>\n" ++ printAliases CommandType.Typecheck ++
        "Typecheck the given expression and print its top-level type\n"
    | Except.ok CommandType.Exit =>
      ":exit\n" ++ printAliases CommandType.Exit ++ "Exit the REPL session\n"
    | Except.error _ =>
      "Unknown command `" ++ a ++ "`.\n" ++
        "Available commands: ? help query load typecheck\n"
  | none => "Available commands: help query load typecheck exit\n"

/-- The `REPL` trait (repl.rs:43-54): the backend interface the frontends are
programmed against, over an abstract backend state `σ`. -/
structure REPLTrait (σ : Type) where
  eval : σ → String → Except Error EvalResult × σ
  load : σ → String → Except Error Term × σ
  typecheck : σ → String → Except Error Types × σ
  query : σ → String → Except Error Term × σ

/-- `simple_frontend::InputError` (repl.rs:876-879). -/
inductive InputError where
  | NickelError (e : Error)
  | Other (msg : String)
deriving DecidableEq, Repr

/-- `simple_frontend::InputResult` (repl.rs:882-889). -/
inductive InputResult where
  | Success (msg : String)
  | Blank
  | Partial
deriving DecidableEq, Repr

/-- `simple_frontend::input` (repl.rs:905-951): blank lines succeed as `Blank`,
`:`-lines are parsed as commands and dispatched to the backend, everything
else is evaluated; every backend or command failure is returned as an
`InputError` value. -/
def simple_frontend.input (R : REPLTrait σ) (st : σ) (line : String) :
    Except InputError InputResult × σ :=
  if isBlank line then (Except.ok InputResult.Blank, st)
  else if startsWithColon line then
    match Command.from_str (line.drop 1) with
    | Except.ok (Command.Load _) =>
      (Except.error (InputError.Other ":load is not enabled on this REPL."), st)
    | Except.ok (Command.Typecheck exp) =>
      match R.typecheck st exp with
      | (Except.ok types, st2) =>
        (Except.ok (InputResult.Success ("Ok: " ++ types)), st2)
      | (Except.error e, st2) => (Except.error (InputError.NickelError e), st2)
    | Except.ok (Command.Query exp) =>
      match R.query st exp with
      | (Except.ok t, st2) =>
        (Except.ok (InputResult.Success (write_query_result t Attributes.standard)), st2)
      | (Except.error e, st2) => (Except.error (InputError.NickelError e), st2)
    | Except.ok (Command.Help arg) =>
      (Except.ok (InputResult.Success (print_help arg)), st)
    | Except.ok Command.Exit => (Except.ok (InputResult.Success "Exiting"), st)
    | Except.error err =>
      (Except.error (InputError.NickelError (Error.REPLError err)), st)
  else
    match R.eval st line with
    | (Except.ok (EvalResult.Evaluated t), st2) =>
      (Except.ok (InputResult.Success (t.shallow_repr ++ "\n")), st2)
    | (Except.ok (EvalResult.Bound _), st2) =>
      (Except.ok (InputResult.Success ""), st2)
    | (Except.error e, st2) => (Except.error (InputError.NickelError e), st2)

/-- One result of `editor.readline` in the rustyline frontend. -/
inductive ReadlineResult where
  | Line (s : String)
  | Eof
  | Interrupted
  | ReadErr (msg : String)
deriving DecidableEq, Repr

/-- What one iteration of the rustyline loop does next: continue (after
reporting an error or not), exit through the `:exit` command, or exit on
end-of-file. -/
inductive LoopOutcome where
  | Continue (reported : Bool)
  | ExitCommand
  | EofExit
deriving DecidableEq, Repr

/-- Whether a loop outcome continues to the next prompt. -/
def LoopOutcome.isContinue : LoopOutcome → Bool
  | LoopOutcome.Continue _ => true
  | _ => false

/-- The body of the rustyline REPL loop (repl.rs:497-566) for one readline
result: blank lines and interrupts continue silently; command and evaluation
errors are reported and the loop continues; only the `:exit` command and
end-of-file leave the loop. -/
def rustyline_step (R : REPLTrait σ) (st : σ) :
    ReadlineResult → LoopOutcome × σ
  | ReadlineResult.Line line =>
    if isBlank line then (LoopOutcome.Continue false, st)
    else if startsWithColon line then
      match Command.from_str (line.drop 1) with
      | Except.ok (Command.Load path) =>
        match R.load st path with
        | (Except.ok _, st2) => (LoopOutcome.Continue false, st2)
        | (Except.error _, st2) => (LoopOutcome.Continue true, st2)
      | Except.ok (Command.Typecheck exp) =>
        match R.typecheck st exp with
        | (Except.ok _, st2) => (LoopOutcome.Continue false, st2)
        | (Except.error _, st2) => (LoopOutcome.Continue true, st2)
      | Except.ok (Command.Query exp) =>
        match R.query st exp with
        | (Except.ok _, st2) => (LoopOutcome.Continue false, st2)
        | (Except.error _, st2) => (LoopOutcome.Continue true, st2)
      | Except.ok (Command.Help _) => (LoopOutcome.Continue false, st)
      | Except.ok Command.Exit => (LoopOutcome.ExitCommand, st)
      | Except.error _ => (LoopOutcome.Continue true, st)
    else
      match R.eval st line with
      | (Except.ok _, st2) => (LoopOutcome.Continue false, st2)
      | (Except.error _, st2) => (LoopOutcome.Continue true, st2)
  | ReadlineResult.Eof => (LoopOutcome.EofExit, st)
  | ReadlineResult.Interrupted => (LoopOutcome.Continue false, st)
  | ReadlineResult.ReadErr _ => (LoopOutcome.Continue true, st)

/-- One REPL input of an incremental session: an `eval` line or a `:load`. -/
inductive ReplInput where
  | Expr (exp : String)
  | LoadFile (path : String)

/-- The state reached after processing one input. -/
def processInput (P : Pipeline κ) (st : REPLImpl κ) : ReplInput → REPLImpl κ
  | ReplInput.Expr exp => (REPLImpl.eval P st exp).2
  | ReplInput.LoadFile path => (REPLImpl.load P st path).2

/-- The state reached after processing a sequence of inputs. -/
def runInputs (P : Pipeline κ) (st : REPLImpl κ) : List ReplInput → REPLImpl κ
  | [] => st
  | i :: rest => runInputs P (processInput P st i) rest

/-- The cache state after `REPLImpl::eval` registers the input. -/
def inputCache (P : Pipeline κ) (st : REPLImpl κ) (exp : String) : κ :=
  (P.add_string st.cache ("repl-input-" ++ toString st.counter) exp).2

/-- Whether an input is a toplevel let that typechecks but whose
transformation fails — the one step of `REPLImpl::eval` that extends the
typing environment without the matching evaluation-environment extension. -/
def transformFailsOnLet (P : Pipeline κ) (st : REPLImpl κ) : ReplInput → Bool
  | ReplInput.Expr exp =>
    match P.parse exp with
    | Except.ok (ExtendedTerm.ToplevelLet _ t) =>
      match P.type_check_in_env t st.type_env (inputCache P st exp) with
      | Except.ok _ =>
        match P.transform t (inputCache P st exp) with
        | Except.error _ => true
        | Except.ok _ => false
      | Except.error _ => false
    | _ => false
  | ReplInput.LoadFile _ => false

/-- Whether a whole session avoids the toplevel-let transformation failure. -/
def noTransformFailure (P : Pipeline κ) (st : REPLImpl κ) : List ReplInput → Bool
  | [] => true
  | i :: rest =>
    !transformFailsOnLet P st i && noTransformFailure P (processInput P st i) rest

/-- The typing environment and the evaluation environment bind exactly the
same set of identifiers. -/
def domEq (st : REPLImpl κ) : Prop :=
  ∀ id : Ident, id ∈ envIdents st.type_env ↔ id ∈ envIdents st.eval_env

/-- The empty REPL state over the trivial cache. -/
def replState0 : REPLImpl Unit :=
  { cache := (), counter := 0, type_env := [], eval_env := [] }

/-- A pipeline on which every stage succeeds and every input parses as a plain
expression. -/
def POk : Pipeline Unit where
  add_string := fun c _ _ => (0, c)
  add_tmp := fun c _ _ => (0, c)
  add_file := fun c _ => Except.ok (0, c)
  parse := fun s => Except.ok (ExtendedTerm.RichTerm (Term.Str s))
  parse_nocache := fun s => Except.ok (Term.Str s)
  parse_file := fun c _ => Except.ok (Term.Record [("a", Term.Num 1)], c)
  type_check_in_env := fun _ _ _ => Except.ok ()
  apparent_type := fun _ => "Dyn"
  transform := fun t c => Except.ok (t, c)
  transform_inner := fun c _ => Except.ok (Term.Record [("a", Term.Num 1)], c)
  eval := fun t _ c => Except.ok (t, c)
  query := fun c _ _ => Except.ok (Term.Num 1, c)

/-- A pipeline on which every input parses as a toplevel let binding of `x`
and every stage succeeds. -/
def PLet : Pipeline Unit where
  add_string := fun c _ _ => (0, c)
  add_tmp := fun c _ _ => (0, c)
  add_file := fun c _ => Except.ok (0, c)
  parse := fun s => Except.ok (ExtendedTerm.ToplevelLet "x" (Term.Str s))
  parse_nocache := fun s => Except.ok (Term.Str s)
  parse_file := fun c _ => Except.ok (Term.Record [("a", Term.Num 1)], c)
  type_check_in_env := fun _ _ _ => Except.ok ()
  apparent_type := fun _ => "Dyn"
  transform := fun t c => Except.ok (t, c)
  transform_inner := fun c _ => Except.ok (Term.Record [("a", Term.Num 1)], c)
  eval := fun t _ c => Except.ok (t, c)
  query := fun c _ _ => Except.ok (Term.Num 1, c)

/-- A pipeline on which every input parses as a toplevel let binding of `x`
that typechecks, but whose transformation stage fails. -/
def PXformFail : Pipeline Unit where
  add_string := fun c _ _ => (0, c)
  add_tmp := fun c _ _ => (0, c)
  add_file := fun c _ => Except.ok (0, c)
  parse := fun s => Except.ok (ExtendedTerm.ToplevelLet "x" (Term.Str s))
  parse_nocache := fun s => Except.ok (Term.Str s)
  parse_file := fun c _ => Except.ok (Term.Record [("a", Term.Num 1)], c)
  type_check_in_env := fun _ _ _ => Except.ok ()
  apparent_type := fun _ => "Dyn"
  transform := fun _ _ => Except.error "import of missing.ncl failed"
  transform_inner := fun c _ => Except.ok (Term.Record [("a", Term.Num 1)], c)
  eval := fun t _ c => Except.ok (t, c)
  query := fun c _ _ => Except.ok (Term.Num 1, c)

/-- A pipeline on which loaded files parse to a number (not a record). -/
def PNonRecord : Pipeline Unit where
  add_string := fun c _ _ => (0, c)
  add_tmp := fun c _ _ => (0, c)
  add_file := fun c _ => Except.ok (0, c)
  parse := fun s => Except.ok (ExtendedTerm.RichTerm (Term.Str s))
  parse_nocache := fun s => Except.ok (Term.Str s)
  parse_file := fun c _ => Except.ok (Term.Num 42, c)
  type_check_in_env := fun _ _ _ => Except.ok ()
  apparent_type := fun _ => "Dyn"
  transform := fun t c => Except.ok (t, c)
  transform_inner := fun c _ => Except.ok (Term.Num 42, c)
  eval := fun t _ c => Except.ok (t, c)
  query := fun c _ _ => Except.ok (Term.Num 1, c)

/-- A grammar parser that always fails with `UnmatchedCloseBrace`. -/
def parserUCB : String → Except ParseError ExtendedTerm :=
  fun _ => Except.error ParseError.UnmatchedCloseBrace

/-- A backend every operation of which fails with an evaluation error. -/
def RFail : REPLTrait Unit where
  eval := fun st _ => (Except.error (Error.EvalError (EvalError.Blame "boom")), st)
  load := fun st _ => (Except.error (Error.EvalError (EvalError.Blame "boom")), st)
  typecheck := fun st _ => (Except.error (Error.EvalError (EvalError.Blame "boom")), st)
  query := fun st _ => (Except.error (Error.EvalError (EvalError.Blame "boom")), st)

/-- The classification of a grammar-parser outcome performed by
`InputParser::parse` on non-command, non-blank input. -/
def classifyParse : Except ParseError ExtendedTerm → InputStatus
  | Except.ok t => InputStatus.Complete t
  | Except.error ParseError.UnexpectedEOF => InputStatus.Partial
  | Except.error ParseError.UnmatchedCloseBrace => InputStatus.Partial
  | Except.error err => InputStatus.Failed err

lemma envIdents_foldl (g : Ident → Term → α) (fs : List (Ident × Term)) :
    ∀ env : List (Ident × α),
      envIdents (fs.foldl (fun e f => envAdd e f.1 (g f.1 f.2)) env) =
        (fs.map Prod.fst).reverse ++ envIdents env := by
  induction fs with
  | nil => intro env; rfl
  | cons f fs ih =>
    intro env
    rw [List.foldl_cons, ih]
    simp [envIdents, envAdd, List.append_assoc]

lemma envIdents_envAddTermTypes (P : Pipeline κ) (env : TypeEnv) (t : Term) :
    envIdents (envAddTermTypes P env t) =
      (match t with
       | Term.Record fs => (fs.map Prod.fst).reverse
       | Term.RecRecord fs => (fs.map Prod.fst).reverse
       | _ => []) ++ envIdents env := by
  cases t <;>
    simp only [envAddTermTypes, List.nil_append] <;>
    exact envIdents_foldl (fun _ u => P.apparent_type u) _ env

lemma envIdents_envAddTermEval (env : EvalEnv) (t : Term) :
    envIdents (envAddTermEval env t) =
      (match t with
       | Term.Record fs => (fs.map Prod.fst).reverse
       | Term.RecRecord fs => (fs.map Prod.fst).reverse
       | _ => []) ++ envIdents env := by
  cases t <;>
    simp only [envAddTermEval, List.nil_append] <;>
    exact envIdents_foldl (fun _ u => u) _ env

/-- C10: for every input string that starts with `:` or consists only of
whitespace, `InputParser::parse` returns `InputStatus::Command` without
invoking the grammar parser (the result is the same for every parser); the
parser is invoked only for the remaining inputs, whose status is exactly the
classification of the parser's output. -/
theorem C10_command_detect (p q : String → Except ParseError ExtendedTerm)
    (input : String) :
    ((startsWithColon input || isBlank input) = true →
      InputParser.parse p input = InputStatus.Command ∧
      InputParser.parse p input = InputParser.parse q input) ∧
    ((startsWithColon input || isBlank input) = false →
      InputParser.parse p input = classifyParse (p input)) := by
  constructor
  · intro h
    constructor
    · simp [InputParser.parse, h]
    · simp [InputParser.parse, h]
  · intro h
    simp only [InputParser.parse, h, Bool.false_eq_true, if_false]
    cases hp : p input with
    | ok t => rfl
    | error e => cases e <;> rfl

/-- Witness for C10 at concrete inputs: a command line and a blank line are
classified as commands for an arbitrary parser, and a plain expression is
classified from the parser's output. -/
theorem C10_witness :
    InputParser.parse parserUCB ":exit" = InputStatus.Command ∧
    InputParser.parse parserUCB "  " = InputStatus.Command ∧
    InputParser.parse parserUCB "foo" = classifyParse (parserUCB "foo") :=
  ⟨((C10_command_detect parserUCB parserUCB ":exit").1 (by rfl)).1,
   ((C10_command_detect parserUCB parserUCB "  ").1 (by rfl)).1,
   (C10_command_detect parserUCB parserUCB "foo").2 (by rfl)⟩

/-- C4 (amended): for non-command, non-blank input, `InputParser::parse`
returns `Partial` exactly when the parser fails with `UnexpectedEOF` *or* with
`UnmatchedCloseBrace`, returns `Failed` with the error for every other parse
error, and returns `Complete` with the term on success. -/
theorem C4_input_classification (p : String → Except ParseError ExtendedTerm)
    (input : String)
    (hcond : (startsWithColon input || isBlank input) = false) :
    (∀ t, p input = Except.ok t →
      InputParser.parse p input = InputStatus.Complete t) ∧
    (p input = Except.error ParseError.UnexpectedEOF →
      InputParser.parse p input = InputStatus.Partial) ∧
    (p input = Except.error ParseError.UnmatchedCloseBrace →
      InputParser.parse p input = InputStatus.Partial) ∧
    (∀ m, p input = Except.error (ParseError.SyntaxError m) →
      InputParser.parse p input = InputStatus.Failed (ParseError.SyntaxError m)) ∧
    (InputParser.parse p input = InputStatus.Partial →
      p input = Except.error ParseError.UnexpectedEOF ∨
      p input = Except.error ParseError.UnmatchedCloseBrace) := by
  refine ⟨?_, ?_, ?_, ?_, ?_⟩
  · intro t h; simp [InputParser.parse, hcond, h]
  · intro h; simp [InputParser.parse, hcond, h]
  · intro h; simp [InputParser.parse, hcond, h]
  · intro m h; simp [InputParser.parse, hcond, h]
  · intro h
    simp only [InputParser.parse, hcond, Bool.false_eq_true, if_false] at h
    cases hp : p input with
    | ok t => rw [hp] at h; exact absurd h (by intro hc; cases hc)
    | error e =>
      cases e with
      | UnexpectedEOF => exact Or.inl rfl
      | UnmatchedCloseBrace => exact Or.inr rfl
      | SyntaxError m => rw [hp] at h; exact absurd h (by intro hc; cases hc)

/-- Counterexample to C4 as stated: an `UnmatchedCloseBrace` parse error is
not an unexpected-end-of-input error, yet `InputParser::parse` answers
`Partial`, not `Failed`, on it. -/
theorem C4_counterexample :
    InputParser.parse parserUCB "x" = InputStatus.Partial ∧
    InputParser.parse parserUCB "x" ≠
      InputStatus.Failed ParseError.UnmatchedCloseBrace := by
  have h1 : InputParser.parse parserUCB "x" = InputStatus.Partial := rfl
  exact ⟨h1, by rw [h1]; intro hc; cases hc⟩

/-- Witness for C4 at concrete inputs: each classification case realized. -/
theorem C4_witness :
    InputParser.parse (fun _ => Except.error ParseError.UnexpectedEOF) "x" =
      InputStatus.Partial ∧
    InputParser.parse (fun _ => Except.error (ParseError.SyntaxError "bad")) "x" =
      InputStatus.Failed (ParseError.SyntaxError "bad") ∧
    InputParser.parse (fun _ => Except.ok (ExtendedTerm.RichTerm (Term.Num 1))) "x" =
      InputStatus.Complete (ExtendedTerm.RichTerm (Term.Num 1)) :=
  ⟨(C4_input_classification (fun _ => Except.error ParseError.UnexpectedEOF) "x"
      (by rfl)).2.1 rfl,
   (C4_input_classification (fun _ => Except.error (ParseError.SyntaxError "bad")) "x"
      (by rfl)).2.2.2.1 "bad" rfl,
   (C4_input_classification (fun _ => Except.ok (ExtendedTerm.RichTerm (Term.Num 1))) "x"
      (by rfl)).1 (ExtendedTerm.RichTerm (Term.Num 1)) rfl⟩

/-- C8: `Command::from_str` returns a `MissingArg` REPL error when the command
word names `load`, `typecheck` or `query` and the argument is empty or
whitespace-only; `help` accepts an empty argument as `Help(None)` (and trims a
non-empty one); `exit` ignores any argument; an unrecognized command name
yields an `UnknownCommand` error. -/
theorem C8_command_args (s : String) :
    (CommandType.from_str (cmdStrOf s) = Except.ok CommandType.Load →
      isBlank (argOf s) = true →
      Command.from_str s = Except.error (REPLError.MissingArg CommandType.Load
        (some "Please provide a file to load"))) ∧
    (CommandType.from_str (cmdStrOf s) = Except.ok CommandType.Typecheck →
      isBlank (argOf s) = true →
      Command.from_str s =
        Except.error (REPLError.MissingArg CommandType.Typecheck none)) ∧
    (CommandType.from_str (cmdStrOf s) = Except.ok CommandType.Query →
      isBlank (argOf s) = true →
      Command.from_str s =
        Except.error (REPLError.MissingArg CommandType.Query none)) ∧
    (CommandType.from_str (cmdStrOf s) = Except.ok CommandType.Help →
      isBlank (argOf s) = true →
      Command.from_str s = Except.ok (Command.Help none)) ∧
    (CommandType.from_str (cmdStrOf s) = Except.ok CommandType.Help →
      isBlank (argOf s) = false →
      Command.from_str s = Except.ok (Command.Help (some (rustTrim (argOf s))))) ∧
    (CommandType.from_str (cmdStrOf s) = Except.ok CommandType.Exit →
      Command.from_str s = Except.ok Command.Exit) ∧
    (∀ e, CommandType.from_str (cmdStrOf s) = Except.error e →
      Command.from_str s = Except.error (REPLError.UnknownCommand (cmdStrOf s))) := by
  refine ⟨?_, ?_, ?_, ?_, ?_, ?_, ?_⟩
  · intro h harg; simp [Command.from_str, h, require_arg, harg]
  · intro h harg; simp [Command.from_str, h, require_arg, harg]
  · intro h harg; simp [Command.from_str, h, require_arg, harg]
  · intro h harg; simp [Command.from_str, h, harg]
  · intro h harg; simp [Command.from_str, h, harg]
  · intro h; simp [Command.from_str, h]
  · intro e h; simp [Command.from_str, h]

/-- Witness for C8 at concrete command lines: a whitespace-only `load`
argument is rejected, a bare `help` succeeds with no argument, `exit` ignores
its argument, and an unknown name is reported. -/
theorem C8_witness :
    Command.from_str "load  " = Except.error (REPLError.MissingArg
      CommandType.Load (some "Please provide a file to load")) ∧
    Command.from_str "tc" =
      Except.error (REPLError.MissingArg CommandType.Typecheck none) ∧
    Command.from_str "query " =
      Except.error (REPLError.MissingArg CommandType.Query none) ∧
    Command.from_str "help" = Except.ok (Command.Help none) ∧
    Command.from_str "help  exit " = Except.ok (Command.Help (some "exit")) ∧
    Command.from_str "exit now" = Except.ok Command.Exit ∧
    Command.from_str "frobnicate x" =
      Except.error (REPLError.UnknownCommand "frobnicate") :=
  ⟨(C8_command_args "load  ").1 rfl rfl,
   (C8_command_args "tc").2.1 rfl rfl,
   (C8_command_args "query ").2.2.1 rfl rfl,
   (C8_command_args "help").2.2.2.1 rfl rfl,
   (C8_command_args "help  exit ").2.2.2.2.1 rfl rfl,
   (C8_command_args "exit now").2.2.2.2.2.1 rfl,
   (C8_command_args "frobnicate x").2.2.2.2.2.2 {} rfl⟩

/-- C6: `REPLImpl::typecheck` is a pure check: it never changes the typing
environment or the evaluation environment, and (when the expression parses)
it returns either the expression's apparent type or a type error. -/
theorem C6_typecheck_pure (P : Pipeline κ) (st : REPLImpl κ) (exp : String) :
    ((REPLImpl.typecheck P st exp).2.type_env = st.type_env ∧
     (REPLImpl.typecheck P st exp).2.eval_env = st.eval_env) ∧
    (∀ t, P.parse_nocache exp = Except.ok t →
      (REPLImpl.typecheck P st exp).1 = Except.ok (P.apparent_type t) ∨
      ∃ e, (REPLImpl.typecheck P st exp).1 =
        Except.error (Error.TypecheckError e)) := by
  constructor
  · cases hp : P.parse_nocache exp with
    | error e => simp [REPLImpl.typecheck, hp]
    | ok t =>
      cases htc : P.type_check_in_env t st.type_env
          (P.add_tmp st.cache "<repl-typecheck>" exp).2 with
      | error e => simp [REPLImpl.typecheck, hp, htc]
      | ok u => simp [REPLImpl.typecheck, hp, htc]
  · intro t hp
    cases htc : P.type_check_in_env t st.type_env
        (P.add_tmp st.cache "<repl-typecheck>" exp).2 with
    | error e => exact Or.inr ⟨e, by simp [REPLImpl.typecheck, hp, htc]⟩
    | ok u => exact Or.inl (by simp [REPLImpl.typecheck, hp, htc])

/-- Witness for C6 at a concrete pipeline and input: the environments are
untouched and the apparent type is returned. -/
theorem C6_witness :
    ((REPLImpl.typecheck POk replState0 "1").2.type_env = replState0.type_env ∧
     (REPLImpl.typecheck POk replState0 "1").2.eval_env = replState0.eval_env) ∧
    ((REPLImpl.typecheck POk replState0 "1").1 =
        Except.ok (POk.apparent_type (Term.Str "1")) ∨
      ∃ e, (REPLImpl.typecheck POk replState0 "1").1 =
        Except.error (Error.TypecheckError e)) :=
  ⟨(C6_typecheck_pure POk replState0 "1").1,
   (C6_typecheck_pure POk replState0 "1").2 (Term.Str "1") rfl⟩

/-- C9: when a loaded file parses to a term that is neither a record nor a
recursive record, `REPLImpl::load` returns the `"load: expected a record"`
evaluation error, leaves both environments unchanged, and does so before any
transformation runs: the outcome is the same for any pipeline that agrees
only on `add_file` and `parse_file`. -/
theorem C9_load_non_record (P Q : Pipeline κ) (st : REPLImpl κ) (path : String)
    (fid : FileId) (c : κ) (t : Term) (c2 : κ)
    (hfile : P.add_file st.cache path = Except.ok (fid, c))
    (hparse : P.parse_file c fid = Except.ok (t, c2))
    (hrec : isRecordTerm t = false) :
    (REPLImpl.load P st path).1 =
      Except.error (Error.EvalError (EvalError.Other "load: expected a record")) ∧
    (REPLImpl.load P st path).2.type_env = st.type_env ∧
    (REPLImpl.load P st path).2.eval_env = st.eval_env ∧
    (Q.add_file = P.add_file → Q.parse_file = P.parse_file →
      REPLImpl.load Q st path = REPLImpl.load P st path) := by
  refine ⟨?_, ?_, ?_, ?_⟩
  · simp [REPLImpl.load, hfile, hparse, hrec]
  · simp [REPLImpl.load, hfile, hparse, hrec]
  · simp [REPLImpl.load, hfile, hparse, hrec]
  · intro h1 h2
    simp [REPLImpl.load, h1, h2, hfile, hparse, hrec]

/-- Witness for C9: loading a file that parses to the number `42`. -/
theorem C9_witness :
    (REPLImpl.load PNonRecord replState0 "conf.ncl").1 =
      Except.error (Error.EvalError (EvalError.Other "load: expected a record")) ∧
    (REPLImpl.load PNonRecord replState0 "conf.ncl").2.type_env =
      replState0.type_env ∧
    (REPLImpl.load PNonRecord replState0 "conf.ncl").2.eval_env =
      replState0.eval_env ∧
    (PNonRecord.add_file = PNonRecord.add_file →
      PNonRecord.parse_file = PNonRecord.parse_file →
      REPLImpl.load PNonRecord replState0 "conf.ncl" =
        REPLImpl.load PNonRecord replState0 "conf.ncl") :=
  C9_load_non_record PNonRecord PNonRecord replState0 "conf.ncl" 0 () (Term.Num 42)
    () rfl rfl rfl

/-- C5: under the default attribute selection, the query printer reports, for
a meta-value, its contracts when there are any, its documentation when
present, and its underlying value under the `default` attribute when its
merge priority is `Default` and under the `value` attribute when its merge
priority is `Normal`.  The printer inspects only the metadata and the
outermost constructor of the value: it does not evaluate anything. -/
theorem C5_query_metadata (doc : Option String) (contracts : List Contract)
    (priority : MergePriority) (value : Option Term) :
    (contracts ≠ [] →
      OutEvent.metadata "contract"
          (String.intercalate "," (contracts.map (fun ctr => ctr.label.types))) ∈
        write_query_result_ (Term.MetaValue doc contracts priority value)
          Attributes.standard) ∧
    (∀ d, doc = some d →
      OutEvent.doc d ∈
        write_query_result_ (Term.MetaValue doc contracts priority value)
          Attributes.standard) ∧
    (∀ u, value = some u → priority = MergePriority.Default →
      OutEvent.metadata "default" u.shallow_repr ∈
        write_query_result_ (Term.MetaValue doc contracts priority value)
          Attributes.standard) ∧
    (∀ u, value = some u → priority = MergePriority.Normal →
      OutEvent.metadata "value" u.shallow_repr ∈
        write_query_result_ (Term.MetaValue doc contracts priority value)
          Attributes.standard) := by
  refine ⟨?_, ?_, ?_, ?_⟩
  · intro hc
    have hne : contracts.isEmpty = false := by
      cases contracts with
      | nil => exact absurd rfl hc
      | cons a l => rfl
    simp [write_query_result_, Attributes.standard, hne]
  · intro d hd
    subst hd
    cases priority <;> cases value <;>
      simp [write_query_result_, Attributes.standard]
  · intro u hu hp
    subst hu; subst hp
    simp [write_query_result_, Attributes.standard]
  · intro u hu hp
    subst hu; subst hp
    simp [write_query_result_, Attributes.standard]

/-- Witness for C5 at a concrete meta-value carrying a contract, a doc string
and a `Default`-priority value; plus the `Normal`-priority case. -/
theorem C5_witness :
    (OutEvent.metadata "contract" "Num" ∈
      write_query_result_ (Term.MetaValue (some "a port") [⟨⟨"Num"⟩⟩]
        MergePriority.Default (some (Term.Num 8080))) Attributes.standard) ∧
    (OutEvent.doc "a port" ∈
      write_query_result_ (Term.MetaValue (some "a port") [⟨⟨"Num"⟩⟩]
        MergePriority.Default (some (Term.Num 8080))) Attributes.standard) ∧
    (OutEvent.metadata "default" (Term.Num 8080).shallow_repr ∈
      write_query_result_ (Term.MetaValue (some "a port") [⟨⟨"Num"⟩⟩]
        MergePriority.Default (some (Term.Num 8080))) Attributes.standard) ∧
    (OutEvent.metadata "value" (Term.Num 8080).shallow_repr ∈
      write_query_result_ (Term.MetaValue (some "a port") [⟨⟨"Num"⟩⟩]
        MergePriority.Normal (some (Term.Num 8080))) Attributes.standard) :=
  ⟨(C5_query_metadata (some "a port") [⟨⟨"Num"⟩⟩] MergePriority.Default
      (some (Term.Num 8080))).1 (by intro hc; cases hc),
   (C5_query_metadata (some "a port") [⟨⟨"Num"⟩⟩] MergePriority.Default
      (some (Term.Num 8080))).2.1 "a port" rfl,
   (C5_query_metadata (some "a port") [⟨⟨"Num"⟩⟩] MergePriority.Default
      (some (Term.Num 8080))).2.2.1 (Term.Num 8080) rfl rfl,
   (C5_query_metadata (some "a port") [⟨⟨"Num"⟩⟩] MergePriority.Normal
      (some (Term.Num 8080))).2.2.2 (Term.Num 8080) rfl rfl⟩

/-- C3: for a non-command expression input, `REPLImpl::eval` runs parse, then
typecheck against the typing environment, then transform, then evaluate
against the evaluation environment, returning the evaluated term on success;
a failure at any stage returns that stage's error, and no later stage runs:
the outcome only depends on the pipeline stages up to the failing one. -/
theorem C3_stage_order (P Q : Pipeline κ) (st : REPLImpl κ) (exp : String) :
    (∀ e, P.parse exp = Except.error e →
      (REPLImpl.eval P st exp).1 = Except.error (Error.ParseError e) ∧
      (Q.add_string = P.add_string → Q.parse = P.parse →
        REPLImpl.eval Q st exp = REPLImpl.eval P st exp)) ∧
    (∀ t, P.parse exp = Except.ok (ExtendedTerm.RichTerm t) →
      (∀ e, P.type_check_in_env t st.type_env (inputCache P st exp) =
          Except.error e →
        (REPLImpl.eval P st exp).1 = Except.error (Error.TypecheckError e) ∧
        (Q.add_string = P.add_string → Q.parse = P.parse →
          Q.type_check_in_env = P.type_check_in_env →
          REPLImpl.eval Q st exp = REPLImpl.eval P st exp)) ∧
      (P.type_check_in_env t st.type_env (inputCache P st exp) = Except.ok () →
        (∀ e, P.transform t (inputCache P st exp) = Except.error e →
          (REPLImpl.eval P st exp).1 = Except.error (Error.InternalError e) ∧
          (Q.add_string = P.add_string → Q.parse = P.parse →
            Q.type_check_in_env = P.type_check_in_env →
            Q.transform = P.transform →
            REPLImpl.eval Q st exp = REPLImpl.eval P st exp)) ∧
        (∀ t2 c2, P.transform t (inputCache P st exp) = Except.ok (t2, c2) →
          (∀ e, P.eval t2 st.eval_env c2 = Except.error e →
            (REPLImpl.eval P st exp).1 = Except.error (Error.EvalError e)) ∧
          (∀ v c3, P.eval t2 st.eval_env c2 = Except.ok (v, c3) →
            (REPLImpl.eval P st exp).1 =
              Except.ok (EvalResult.Evaluated v))))) := by
  refine ⟨?_, ?_⟩
  · intro e hparse
    constructor
    · simp [REPLImpl.eval, hparse]
    · intro h1 h2
      simp [REPLImpl.eval, h1, h2, hparse]
  · intro t hparse
    refine ⟨?_, ?_⟩
    · intro e htc
      simp only [inputCache] at htc
      constructor
      · simp [REPLImpl.eval, hparse, htc]
      · intro h1 h2 h3
        simp [REPLImpl.eval, h1, h2, h3, hparse, htc]
    · intro htc
      simp only [inputCache] at htc
      refine ⟨?_, ?_⟩
      · intro e hxf
        simp only [inputCache] at hxf
        constructor
        · simp [REPLImpl.eval, hparse, htc, hxf]
        · intro h1 h2 h3 h4
          simp [REPLImpl.eval, h1, h2, h3, h4, hparse, htc, hxf]
      · intro t2 c2 hxf
        simp only [inputCache] at hxf
        constructor
        · intro e hev
          simp [REPLImpl.eval, hparse, htc, hxf, hev]
        · intro v c3 hev
          simp [REPLImpl.eval, hparse, htc, hxf, hev]

/-- Witness for C3 at a concrete pipeline on which every stage succeeds: the
input evaluates to the parsed term. -/
theorem C3_witness :
    (REPLImpl.eval POk replState0 "1").1 =
      Except.ok (EvalResult.Evaluated (Term.Str "1")) :=
  (((C3_stage_order POk POk replState0 "1").2 (Term.Str "1") rfl).2 rfl).2
    (Term.Str "1") () rfl |>.2 (Term.Str "1") () rfl

/-- C2 (amended): for a toplevel let input, the binding is added to the typing
environment only after its definition typechecks; on a parse or typecheck
failure the call returns an error and both environments are unchanged; but on
a transform failure the call returns an error with the evaluation environment
unchanged while the typing environment retains the new binding; on success
both environments gain the binding. -/
theorem C2_toplevel_let_atomicity (P : Pipeline κ) (st : REPLImpl κ)
    (exp : String) :
    (∀ e, P.parse exp = Except.error e →
      (REPLImpl.eval P st exp).1 = Except.error (Error.ParseError e) ∧
      (REPLImpl.eval P st exp).2.type_env = st.type_env ∧
      (REPLImpl.eval P st exp).2.eval_env = st.eval_env) ∧
    (∀ id t, P.parse exp = Except.ok (ExtendedTerm.ToplevelLet id t) →
      (∀ e, P.type_check_in_env t st.type_env (inputCache P st exp) =
          Except.error e →
        (REPLImpl.eval P st exp).1 = Except.error (Error.TypecheckError e) ∧
        (REPLImpl.eval P st exp).2.type_env = st.type_env ∧
        (REPLImpl.eval P st exp).2.eval_env = st.eval_env) ∧
      (P.type_check_in_env t st.type_env (inputCache P st exp) = Except.ok () →
        (∀ e, P.transform t (inputCache P st exp) = Except.error e →
          (REPLImpl.eval P st exp).1 = Except.error (Error.InternalError e) ∧
          (REPLImpl.eval P st exp).2.type_env =
            envAdd st.type_env id (P.apparent_type t) ∧
          (REPLImpl.eval P st exp).2.eval_env = st.eval_env) ∧
        (∀ t2 c2, P.transform t (inputCache P st exp) = Except.ok (t2, c2) →
          (REPLImpl.eval P st exp).1 = Except.ok (EvalResult.Bound id) ∧
          (REPLImpl.eval P st exp).2.type_env =
            envAdd st.type_env id (P.apparent_type t) ∧
          (REPLImpl.eval P st exp).2.eval_env = envAdd st.eval_env id t2))) := by
  refine ⟨?_, ?_⟩
  · intro e hparse
    refine ⟨?_, ?_, ?_⟩ <;> simp [REPLImpl.eval, hparse]
  · intro id t hparse
    refine ⟨?_, ?_⟩
    · intro e htc
      simp only [inputCache] at htc
      refine ⟨?_, ?_, ?_⟩ <;> simp [REPLImpl.eval, hparse, htc]
    · intro htc
      simp only [inputCache] at htc
      refine ⟨?_, ?_⟩
      · intro e hxf
        simp only [inputCache] at hxf
        refine ⟨?_, ?_, ?_⟩ <;> simp [REPLImpl.eval, hparse, htc, hxf]
      · intro t2 c2 hxf
        simp only [inputCache] at hxf
        refine ⟨?_, ?_, ?_⟩ <;> simp [REPLImpl.eval, hparse, htc, hxf, envAdd]

/-- Counterexample to C2 as stated: on the pipeline whose transformation
stage fails, a toplevel let returns an error, yet the typing environment has
been changed — the claim's atomicity on error does not hold for the transform
stage. -/
theorem C2_counterexample :
    (REPLImpl.eval PXformFail replState0 "let x = import m").1 =
      Except.error (Error.InternalError "import of missing.ncl failed") ∧
    (REPLImpl.eval PXformFail replState0 "let x = import m").2.type_env ≠
      replState0.type_env := by
  constructor
  · rfl
  · have h : (REPLImpl.eval PXformFail replState0 "let x = import m").2.type_env =
        [("x", "Dyn")] := rfl
    rw [h]
    intro hc
    cases hc

/-- Witness for C2 (amended) at the transform-failure pipeline: the typecheck
succeeded, the transform failed, the call errored, the typing environment
retains the binding and the evaluation environment is unchanged. -/
theorem C2_witness :
    (REPLImpl.eval PXformFail replState0 "let x = 1").1 =
      Except.error (Error.InternalError "import of missing.ncl failed") ∧
    (REPLImpl.eval PXformFail replState0 "let x = 1").2.type_env =
      envAdd replState0.type_env "x"
        (PXformFail.apparent_type (Term.Str "let x = 1")) ∧
    (REPLImpl.eval PXformFail replState0 "let x = 1").2.eval_env =
      replState0.eval_env :=
  (((C2_toplevel_let_atomicity PXformFail replState0 "let x = 1").2 "x"
      (Term.Str "let x = 1") rfl).2 rfl).1 "import of missing.ncl failed" rfl

lemma lockstep_step (P : Pipeline κ) (st : REPLImpl κ) (i : ReplInput)
    (hok : transformFailsOnLet P st i = false) (hdom : domEq st) :
    domEq (processInput P st i) := by
  cases i with
  | Expr exp =>
    cases hp : P.parse exp with
    | error e =>
      intro id; simpa [processInput, REPLImpl.eval, hp] using hdom id
    | ok et =>
      cases et with
      | RichTerm t =>
        cases htc : P.type_check_in_env t st.type_env (inputCache P st exp) with
        | error e =>
          simp only [inputCache] at htc
          intro id; simpa [processInput, REPLImpl.eval, hp, htc] using hdom id
        | ok u =>
          simp only [inputCache] at htc
          cases hxf : P.transform t
              (P.add_string st.cache ("repl-input-" ++ toString st.counter) exp).2 with
          | error e =>
            intro id
            simpa [processInput, REPLImpl.eval, hp, htc, hxf] using hdom id
          | ok pr =>
            obtain ⟨t2, c2⟩ := pr
            cases hev : P.eval t2 st.eval_env c2 with
            | error e =>
              intro id
              simpa [processInput, REPLImpl.eval, hp, htc, hxf, hev] using hdom id
            | ok pr2 =>
              obtain ⟨v, c3⟩ := pr2
              intro id
              simpa [processInput, REPLImpl.eval, hp, htc, hxf, hev] using hdom id
      | ToplevelLet id t =>
        cases htc : P.type_check_in_env t st.type_env (inputCache P st exp) with
        | error e =>
          simp only [inputCache] at htc
          intro id0; simpa [processInput, REPLImpl.eval, hp, htc] using hdom id0
        | ok u =>
          cases hxf : P.transform t (inputCache P st exp) with
          | error e =>
            exact absurd hok (by simp [transformFailsOnLet, hp, htc, hxf])
          | ok pr =>
            obtain ⟨t2, c2⟩ := pr
            simp only [inputCache] at htc hxf
            intro id0
            have := hdom id0
            simp only [processInput, REPLImpl.eval, hp, htc, hxf, envAdd,
              envIdents, List.map_cons, List.mem_cons] at this ⊢
            exact or_congr Iff.rfl this
  | LoadFile path =>
    cases hf : P.add_file st.cache path with
    | error e =>
      intro id; simpa [processInput, REPLImpl.load, hf] using hdom id
    | ok pr =>
      obtain ⟨fid, c⟩ := pr
      cases hpf : P.parse_file c fid with
      | error e =>
        intro id; simpa [processInput, REPLImpl.load, hf, hpf] using hdom id
      | ok pr2 =>
        obtain ⟨t, c2⟩ := pr2
        cases hrec : isRecordTerm t with
        | false =>
          intro id
          simpa [processInput, REPLImpl.load, hf, hpf, hrec] using hdom id
        | true =>
          cases hxi : P.transform_inner c2 fid with
          | error e =>
            intro id
            simpa [processInput, REPLImpl.load, hf, hpf, hrec, hxi] using hdom id
          | ok pr3 =>
            obtain ⟨term, c3⟩ := pr3
            intro id0
            have hmm := hdom id0
            have h1 : (processInput P st (ReplInput.LoadFile path)).type_env =
                envAddTermTypes P st.type_env term := by
              simp [processInput, REPLImpl.load, hf, hpf, hrec, hxi]
            have h2 : (processInput P st (ReplInput.LoadFile path)).eval_env =
                envAddTermEval st.eval_env term := by
              simp [processInput, REPLImpl.load, hf, hpf, hrec, hxi]
            rw [h1, h2, envIdents_envAddTermTypes, envIdents_envAddTermEval]
            simp only [List.mem_append]
            exact or_congr Iff.rfl hmm

/-- C1 (amended): across any sequence of REPL inputs (expressions, toplevel
lets and loads) in which no toplevel let fails in the transformation stage,
the typing environment and the evaluation environment bind exactly the same
set of identifiers after every input, successfully processed or not. -/
theorem C1_lockstep_amended (P : Pipeline κ) (st : REPLImpl κ)
    (inputs : List ReplInput)
    (hok : noTransformFailure P st inputs = true) (hdom : domEq st) :
    domEq (runInputs P st inputs) := by
  induction inputs generalizing st with
  | nil => exact hdom
  | cons i rest ih =>
    simp only [noTransformFailure, Bool.and_eq_true] at hok
    simp only [runInputs]
    exact ih (processInput P st i) hok.2
      (lockstep_step P st i (by simpa using hok.1) hdom)

/-- Counterexample to C1 as stated: starting from environments binding the
same identifiers, a toplevel let whose transformation fails leaves the
typing environment with the binding `x` while the evaluation environment
stays empty — after this unsuccessfully processed input the two environments
do not bind the same set of identifiers. -/
theorem C1_counterexample :
    domEq replState0 ∧
    ¬ domEq (runInputs PXformFail replState0
        [ReplInput.Expr "let x = import m"]) := by
  constructor
  · intro id; simp [replState0, envIdents]
  · intro h
    have h1 : envIdents (runInputs PXformFail replState0
        [ReplInput.Expr "let x = import m"]).type_env = ["x"] := rfl
    have h2 : envIdents (runInputs PXformFail replState0
        [ReplInput.Expr "let x = import m"]).eval_env = [] := rfl
    have hx := (h "x").mp (by rw [h1]; exact List.mem_singleton.mpr rfl)
    rw [h2] at hx
    exact List.not_mem_nil _ hx

/-- Witness for C1 (amended) on a session of one toplevel let and one load on
an all-stages-succeed pipeline. -/
theorem C1_witness :
    noTransformFailure PLet replState0
      [ReplInput.Expr "let y = 1", ReplInput.LoadFile "conf.ncl"] = true ∧
    domEq (runInputs PLet replState0
      [ReplInput.Expr "let y = 1", ReplInput.LoadFile "conf.ncl"]) :=
  ⟨rfl,
   C1_lockstep_amended PLet replState0
     [ReplInput.Expr "let y = 1", ReplInput.LoadFile "conf.ncl"] rfl
     (fun id => by simp [replState0, envIdents])⟩

/-- C7: parse, type, evaluation and REPL errors are surfaced as recoverable
error values: whenever `simple_frontend::input` fails, it returns the failure
as an `Err(InputError)` result, the backend errors of each dispatch path are
wrapped as `NickelError` values, and the rustyline loop never exits on such an
input — it reports the error and continues to the next prompt (it leaves the
loop only on the `:exit` command or on end-of-file; interrupts continue and a
readline error is reported and continues). -/
theorem C7_errors_recoverable {σ : Type} (R : REPLTrait σ) (st : σ)
    (line : String) :
    (∀ e, (simple_frontend.input R st line).1 = Except.error e →
      LoopOutcome.isContinue
        (rustyline_step R st (ReadlineResult.Line line)).1 = true) ∧
    (∀ e st2, isBlank line = false → startsWithColon line = false →
      R.eval st line = (Except.error e, st2) →
      simple_frontend.input R st line =
        (Except.error (InputError.NickelError e), st2) ∧
      (rustyline_step R st (ReadlineResult.Line line)).1 =
        LoopOutcome.Continue true) ∧
    (∀ err, isBlank line = false → startsWithColon line = true →
      Command.from_str (line.drop 1) = Except.error err →
      (simple_frontend.input R st line).1 =
        Except.error (InputError.NickelError (Error.REPLError err)) ∧
      (rustyline_step R st (ReadlineResult.Line line)).1 =
        LoopOutcome.Continue true) ∧
    (∀ exp e st2, isBlank line = false → startsWithColon line = true →
      Command.from_str (line.drop 1) = Except.ok (Command.Typecheck exp) →
      R.typecheck st exp = (Except.error e, st2) →
      simple_frontend.input R st line =
        (Except.error (InputError.NickelError e), st2) ∧
      (rustyline_step R st (ReadlineResult.Line line)).1 =
        LoopOutcome.Continue true) ∧
    (∀ exp e st2, isBlank line = false → startsWithColon line = true →
      Command.from_str (line.drop 1) = Except.ok (Command.Query exp) →
      R.query st exp = (Except.error e, st2) →
      simple_frontend.input R st line =
        (Except.error (InputError.NickelError e), st2) ∧
      (rustyline_step R st (ReadlineResult.Line line)).1 =
        LoopOutcome.Continue true) ∧
    ((rustyline_step R st ReadlineResult.Interrupted).1 =
      LoopOutcome.Continue false) ∧
    (∀ m, (rustyline_step R st (ReadlineResult.ReadErr m)).1 =
      LoopOutcome.Continue true) := by
  refine ⟨?_, ?_, ?_, ?_, ?_, rfl, fun m => rfl⟩
  · intro e herr
    by_cases hb : isBlank line = true
    · simp [simple_frontend.input, hb] at herr
    · rw [Bool.not_eq_true] at hb
      by_cases hc : startsWithColon line = true
      · cases hcmd : Command.from_str (line.drop 1) with
        | error err =>
          simp [rustyline_step, hb, hc, hcmd, LoopOutcome.isContinue]
        | ok cmd =>
          cases cmd with
          | Load path =>
            cases hl : R.load st path with
            | mk res st2 =>
              cases res with
              | error e2 =>
                simp [rustyline_step, hb, hc, hcmd, hl, LoopOutcome.isContinue]
              | ok t =>
                simp [rustyline_step, hb, hc, hcmd, hl, LoopOutcome.isContinue]
          | Typecheck exp =>
            cases ht : R.typecheck st exp with
            | mk res st2 =>
              cases res with
              | error e2 =>
                simp [rustyline_step, hb, hc, hcmd, ht, LoopOutcome.isContinue]
              | ok t =>
                simp [simple_frontend.input, hb, hc, hcmd, ht] at herr
          | Query exp =>
            cases hq : R.query st exp with
            | mk res st2 =>
              cases res with
              | error e2 =>
                simp [rustyline_step, hb, hc, hcmd, hq, LoopOutcome.isContinue]
              | ok t =>
                simp [simple_frontend.input, hb, hc, hcmd, hq] at herr
          | Help arg =>
            simp [simple_frontend.input, hb, hc, hcmd] at herr
          | Exit =>
            simp [simple_frontend.input, hb, hc, hcmd] at herr
      · rw [Bool.not_eq_true] at hc
        cases hev : R.eval st line with
        | mk res st2 =>
          cases res with
          | error e2 =>
            simp [rustyline_step, hb, hc, hev, LoopOutcome.isContinue]
          | ok r =>
            cases r <;> simp [simple_frontend.input, hb, hc, hev] at herr
  · intro e st2 hb hc hev
    constructor
    · simp [simple_frontend.input, hb, hc, hev]
    · simp [rustyline_step, hb, hc, hev]
  · intro err hb hc hcmd
    constructor
    · simp [simple_frontend.input, hb, hc, hcmd]
    · simp [rustyline_step, hb, hc, hcmd]
  · intro exp e st2 hb hc hcmd ht
    constructor
    · simp [simple_frontend.input, hb, hc, hcmd, ht]
    · simp [rustyline_step, hb, hc, hcmd, ht]
  · intro exp e st2 hb hc hcmd hq
    constructor
    · simp [simple_frontend.input, hb, hc, hcmd, hq]
    · simp [rustyline_step, hb, hc, hcmd, hq]

/-- Witness for C7 on the always-failing backend: an evaluation error, an
unknown command, a typecheck-command error and a query-command error are all
returned as `Err` values and the loop continues on each. -/
theorem C7_witness :
    (simple_frontend.input RFail () "1 + 1" =
      (Except.error (InputError.NickelError
        (Error.EvalError (EvalError.Blame "boom"))), ()) ∧
      (rustyline_step RFail () (ReadlineResult.Line "1 + 1")).1 =
        LoopOutcome.Continue true) ∧
    ((simple_frontend.input RFail () ":frobnicate").1 =
      Except.error (InputError.NickelError (Error.REPLError
        (REPLError.UnknownCommand "frobnicate"))) ∧
      (rustyline_step RFail () (ReadlineResult.Line ":frobnicate")).1 =
        LoopOutcome.Continue true) ∧
    (simple_frontend.input RFail () ":tc 1" =
      (Except.error (InputError.NickelError
        (Error.EvalError (EvalError.Blame "boom"))), ()) ∧
      (rustyline_step RFail () (ReadlineResult.Line ":tc 1")).1 =
        LoopOutcome.Continue true) ∧
    (simple_frontend.input RFail () ":q 1" =
      (Except.error (InputError.NickelError
        (Error.EvalError (EvalError.Blame "boom"))), ()) ∧
      (rustyline_step RFail () (ReadlineResult.Line ":q 1")).1 =
        LoopOutcome.Continue true) :=
  ⟨(C7_errors_recoverable RFail () "1 + 1").2.1
      (Error.EvalError (EvalError.Blame "boom")) () rfl rfl rfl,
   (C7_errors_recoverable RFail () ":frobnicate").2.2.1
      (REPLError.UnknownCommand "frobnicate") rfl rfl rfl,
   (C7_errors_recoverable RFail () ":tc 1").2.2.2.1 "1"
      (Error.EvalError (EvalError.Blame "boom")) () rfl rfl rfl rfl,
   (C7_errors_recoverable RFail () ":q 1").2.2.2.2.1 "1"
      (Error.EvalError (EvalError.Blame "boom")) () rfl rfl rfl rfl⟩
